import Mathlib

/-!
Shallow embedding of `src/isar_exr/api/graphql_client.py` (class `GraphqlClient`)
and of the response-extraction helper exercised by `tests/api/test_report.py`.

The Python code talks to external collaborators (the `gql` library, the
network transport, and the `get_access_token` credential provider).  Those
collaborators are modelled by an `Env` oracle: `parse` models `gql(query_string)`
(raising `GraphQLError` on failure), `execute` models `self.client.execute`
(indexed by the number of executions performed so far, so the first attempt and
the retry may behave differently), and `getToken` models `get_access_token`
(indexed by the number of fetches performed so far).  Exceptions are values of
the `Exc` type mirroring the exception classes the Python code dispatches on.

Each operation returns its result (`Except Exc _`), the updated client state,
the updated oracle counters, and a chronological trace of observable events
(log lines, session rebuilds, query executions, and writes to the
`_reauthenticated` flag).  The unbounded Python recursion in `query` is
embedded with explicit fuel (`none` = out of fuel); the reauthentication flag
bounds the real recursion depth at two, which `queryFuel_isSome` proves.
-/

/-- The exception classes distinguished by the `except` clauses of
`GraphqlClient.query` (and by `_initialize_client`).  Payloads carry the
string rendering used by the corresponding log statement
(`e.message`, `str(e)`, `str(e.errors)`). -/
inductive Exc where
  | graphQLError (message : String)
  | transportProtocolError (message : String)
  | transportQueryError (errors : String)
  | transportClosed
  | transportServerError (message : String)
  | other (message : String)
deriving DecidableEq, Repr

/-- `str(e)` for an exception, as interpolated into f-string log messages. -/
def Exc.message : Exc → String
  | .graphQLError m => m
  | .transportProtocolError m => m
  | .transportQueryError m => m
  | .transportClosed => ""
  | .transportServerError m => m
  | .other m => m

/-- Is this exception a `TransportProtocolError` (the only class that can
trigger the reauthentication retry)? -/
def Exc.isProtocol : Exc → Bool
  | .transportProtocolError _ => true
  | _ => false

/-- The result of one `self.client.execute(document, query_parameters)` call:
either the response dictionary, or a raised exception. -/
inductive ExecOutcome where
  | ok (response : List (String × String))
  | err (e : Exc)
deriving DecidableEq, Repr

/-- Observable events of a run, in chronological order. -/
inductive Event where
  | logError (message : String)
  | logCritical (message : String)
  | buildSession (token : String)
  | executeAttempt (session : Option String) (document : String)
      (params : List (String × String))
  | setFlag (value : Bool)
deriving DecidableEq, Repr

/-- Oracle for the external collaborators of `GraphqlClient`. -/
structure Env where
  /-- `gql(query_string)`: parse the query text into a document, or raise
  `GraphQLError` with the given message. -/
  parse : String → Except String String
  /-- `self.client.execute(document, query_parameters)`: outcome of the n-th
  execution (0-based), given the current session header, the document and the
  parameters. -/
  execute : Nat → Option String → String → List (String × String) → ExecOutcome
  /-- `get_access_token()`: result of the n-th token fetch (0-based). -/
  getToken : Nat → Except Exc String

/-- How many executions / token fetches the oracle has served so far. -/
structure Counters where
  execs : Nat
  tokens : Nat
deriving DecidableEq, Repr

/-- The mutable state of one `GraphqlClient` instance: the
`_reauthenticated` flag and the current session (the bearer authorization
header of the live transport; `none` before `_initialize_client` succeeds). -/
structure ClientState where
  reauthenticated : Bool
  session : Option String
deriving DecidableEq, Repr

/-- `GraphqlClient._initialize_client`: fetch a token (logging critically and
re-raising on failure), then build a transport with an
`authorization: Bearer <token>` header and a client around it. -/
def initializeClient (env : Env) (c : Counters) (st : ClientState) :
    Except Exc Unit × ClientState × Counters × List Event :=
  let c' : Counters := { c with tokens := c.tokens + 1 }
  match env.getToken c.tokens with
  | .error e =>
      (.error e, st, c',
        [.logCritical ("CRITICAL - Error getting access token: \n" ++ e.message)])
  | .ok token =>
      (.ok (), { st with session := some ("Bearer " ++ token) }, c',
        [.buildSession token])

/-- `GraphqlClient.__init__`: start with `_reauthenticated = False` and no
session, then run `_initialize_client`; a raised exception propagates and no
client object is produced. -/
def clientInit (env : Env) :
    Except Exc ClientState × Counters × List Event :=
  let st0 : ClientState := { reauthenticated := false, session := none }
  match initializeClient env { execs := 0, tokens := 0 } st0 with
  | (.error x, _, c, tr) => (.error x, c, tr)
  | (.ok _, st1, c, tr) => (.ok st1, c, tr)

/-- `GraphqlClient.query`, with explicit fuel for the recursive retry call
(`none` = out of fuel; fuel 2 always suffices, see `queryFuel_isSome`).

Mirrors the Python control flow: the `try` body parses the query and executes
it, returning the response; each `except` clause logs and re-raises, except
the `TransportProtocolError` clause with the flag unset, which rebuilds the
session, sets the flag, reruns `query` recursively and discards its result;
the `finally` clause writes `_reauthenticated = False` on every exit; the
trailing `return {}` is reached only when the protocol-error handler falls
through. -/
def queryFuel (env : Env) :
    Nat → Counters → ClientState → String → List (String × String) →
    Option (Except Exc (List (String × String)) × ClientState × Counters × List Event)
  | 0, _, _, _, _ => none
  | fuel + 1, c, st, queryString, queryParameters =>
    match env.parse queryString with
    | .error message =>
        some (.error (.graphQLError message), { st with reauthenticated := false }, c,
          [.logError ("Something went wrong while sending the GraphQL query: " ++ message),
           .setFlag false])
    | .ok document =>
      let c1 : Counters := { c with execs := c.execs + 1 }
      let execEv : Event := .executeAttempt st.session document queryParameters
      match env.execute c.execs st.session document queryParameters with
      | .ok response =>
          some (.ok response, { st with reauthenticated := false }, c1,
            [execEv, .setFlag false])
      | .err (.graphQLError message) =>
          some (.error (.graphQLError message), { st with reauthenticated := false }, c1,
            [execEv,
             .logError ("Something went wrong while sending the GraphQL query: " ++ message),
             .setFlag false])
      | .err (.transportProtocolError message) =>
          if st.reauthenticated then
            some (.error (.transportProtocolError message),
              { st with reauthenticated := false }, c1,
              [execEv,
               .logError "Transport protocol error - Error in configuration of GraphQL client",
               .setFlag false])
          else
            match initializeClient env c1 st with
            | (.error x, st2, c2, tr2) =>
                some (.error x, { st2 with reauthenticated := false }, c2,
                  execEv :: tr2 ++ [.setFlag false])
            | (.ok _, st2, c2, tr2) =>
                let st3 : ClientState := { st2 with reauthenticated := true }
                match queryFuel env fuel c2 st3 queryString queryParameters with
                | none => none
                | some (.ok _, st4, c3, tr3) =>
                    some (.ok [], { st4 with reauthenticated := false }, c3,
                      execEv :: tr2 ++ [.setFlag true] ++ tr3 ++ [.setFlag false])
                | some (.error x, st4, c3, tr3) =>
                    some (.error x, { st4 with reauthenticated := false }, c3,
                      execEv :: tr2 ++ [.setFlag true] ++ tr3 ++ [.setFlag false])
      | .err (.transportQueryError errors) =>
          some (.error (.transportQueryError errors), { st with reauthenticated := false }, c1,
            [execEv,
             .logError ("The Energy Robotics server returned an error: " ++ errors),
             .setFlag false])
      | .err .transportClosed =>
          some (.error .transportClosed, { st with reauthenticated := false }, c1,
            [execEv,
             .logError "The connection to the GraphQL endpoint is closed",
             .setFlag false])
      | .err (.transportServerError message) =>
          some (.error (.transportServerError message), { st with reauthenticated := false }, c1,
            [execEv,
             .logError ("Error in Energy Robotics server: " ++ message),
             .setFlag false])
      | .err (.other message) =>
          some (.error (.other message), { st with reauthenticated := false }, c1,
            [execEv,
             .logError ("Unknown error in GraphQL client: " ++ message),
             .setFlag false])

/-- Number of `self.client.execute` attempts recorded in a trace. -/
def countExecs (tr : List Event) : Nat :=
  tr.countP fun e => match e with | .executeAttempt _ _ _ => true | _ => false

/-- Number of session rebuilds (successful `_initialize_client` runs)
recorded in a trace. -/
def countBuilds (tr : List Event) : Nat :=
  tr.countP fun e => match e with | .buildSession _ => true | _ => false

/-- Does the trace contain a log line at error or critical severity? -/
def hasLog (tr : List Event) : Bool :=
  tr.any fun e => match e with
    | .logError _ => true
    | .logCritical _ => true
    | _ => false

/-- Does the trace ever write `_reauthenticated = True`? -/
def setsFlagTrue (tr : List Event) : Bool :=
  tr.any fun e => match e with | .setFlag true => true | _ => false

/-- The log event emitted by the `except` clause that handles a given
exception inside `query` (for the protocol clause: the flag-already-set
branch). -/
def errorLogEvent : Exc → Event
  | .graphQLError m =>
      .logError ("Something went wrong while sending the GraphQL query: " ++ m)
  | .transportProtocolError _ =>
      .logError "Transport protocol error - Error in configuration of GraphQL client"
  | .transportQueryError errs =>
      .logError ("The Energy Robotics server returned an error: " ++ errs)
  | .transportClosed =>
      .logError "The connection to the GraphQL endpoint is closed"
  | .transportServerError m =>
      .logError ("Error in Energy Robotics server: " ++ m)
  | .other m =>
      .logError ("Unknown error in GraphQL client: " ++ m)

/-- Modelled from the spec: `Api._return_latest_mission_report_id` lives in
`isar_exr/api/energy_robotics_api.py`, which is not under `src/` (only its
test is).  Per the spec, a report summary has "an identifier and a
timestamp/ordering key". -/
structure ReportSummary where
  id : String
  date : Nat
deriving DecidableEq, Repr

/-- Modelled from the spec: "given a collection of report summaries (each
with an identifier and a timestamp/ordering key), return the identifier of
the most recent one.  Must be well-defined when the collection is non-empty;
behavior on empty input is an open question" — modelled as `none` on the
empty collection. -/
def returnLatestMissionReportId : List ReportSummary → Option String
  | [] => none
  | r :: rs =>
      some ((rs.foldl (fun best cur => if best.date < cur.date then cur else best) r).id)

/-- Modelled from the spec: the fixture
`tests/data/mission_report_response.json` is not under `src/`; the spec fixes
only the expected extraction result, so the fixture is a report collection in
which the summary with id `"606dd56c023c8866b43f7f7e"` carries the most
recent ordering key. -/
def missionReportFixture : List ReportSummary :=
  [{ id := "605f2a1b023c8866b43f7a01", date := 1616842000 },
   { id := "606dd56c023c8866b43f7f7e", date := 1617806700 },
   { id := "6069c4e0023c8866b43f7c55", date := 1617544000 }]

/-! Concrete environments used to exhibit runs of the client. -/

/-- Every execution succeeds with a fixed response. -/
def envFirstOk : Env :=
  { parse := fun s => .ok s,
    execute := fun _ _ _ _ => .ok [("robot", "ok")],
    getToken := fun _ => .ok "t" }

/-- The first execution hits a `TransportProtocolError`; the retry succeeds
with a non-empty response; token refresh yields `"fresh"`. -/
def envRetryOk : Env :=
  { parse := fun s => .ok s,
    execute := fun i _ _ _ =>
      if i = 0 then .err (.transportProtocolError "expired") else .ok [("a", "1")],
    getToken := fun _ => .ok "fresh" }

/-- Every execution hits a `TransportProtocolError`; token refresh succeeds. -/
def envRetryProtocol : Env :=
  { parse := fun s => .ok s,
    execute := fun _ _ _ _ => .err (.transportProtocolError "p"),
    getToken := fun _ => .ok "fresh" }

/-- Every execution raises a `TransportQueryError`. -/
def envQueryErr : Env :=
  { parse := fun s => .ok s,
    execute := fun _ _ _ _ => .err (.transportQueryError "bad"),
    getToken := fun _ => .ok "t" }

/-- Every execution hits a `TransportProtocolError` and every token fetch
raises. -/
def envTokenFail : Env :=
  { parse := fun s => .ok s,
    execute := fun _ _ _ _ => .err (.transportProtocolError "expired"),
    getToken := fun _ => .error (.other "boom") }

/-! Totality of the fuel embedding: with the flag set no recursion happens,
so fuel 1 suffices; from a normal state (flag unset) fuel 2 suffices.  The
fuel is an artifact of the embedding, not a behavior of the code. -/

theorem queryFuel_isSome_of_flag (env : Env) (fuel : Nat) (c : Counters)
    (st : ClientState) (qs : String) (qp : List (String × String))
    (hflag : st.reauthenticated = true) :
    (queryFuel env (fuel + 1) c st qs qp).isSome := by
  cases hp : env.parse qs with
  | error m => simp [queryFuel, hp]
  | ok doc =>
    cases hx : env.execute c.execs st.session doc qp with
    | ok r => simp [queryFuel, hp, hx]
    | err e => cases e <;> simp [queryFuel, hp, hx, hflag]

theorem queryFuel_isSome (env : Env) (fuel : Nat) (c : Counters)
    (st : ClientState) (qs : String) (qp : List (String × String))
    (hflag : st.reauthenticated = false) :
    (queryFuel env (fuel + 2) c st qs qp).isSome := by
  rw [queryFuel]
  cases hp : env.parse qs with
  | error m => simp [hp]
  | ok doc =>
    simp only [hp]
    cases hx : env.execute c.execs st.session doc qp with
    | ok r => simp [hx]
    | err e =>
      cases e with
      | transportProtocolError m =>
        simp only [hx, hflag]
        cases ht : env.getToken c.tokens with
        | error x => simp [initializeClient, ht]
        | ok token =>
          have h1 := queryFuel_isSome_of_flag env fuel
            { execs := c.execs + 1, tokens := c.tokens + 1 }
            { reauthenticated := true, session := some ("Bearer " ++ token) } qs qp rfl
          simp only [initializeClient, ht]
          cases hq : queryFuel env (fuel + 1)
              { execs := c.execs + 1, tokens := c.tokens + 1 }
              { reauthenticated := true, session := some ("Bearer " ++ token) } qs qp with
          | none => rw [hq] at h1; simp at h1
          | some out =>
            obtain ⟨ri, st4, c3, tr3⟩ := out
            cases ri <;> simp
      | graphQLError m => simp [hx]
      | transportQueryError errs => simp [hx]
      | transportClosed => simp [hx]
      | transportServerError m => simp [hx]
      | other m => simp [hx]

/-- C5: when the first attempt succeeds, `query` parses the query text into a
document, executes it with the given parameters against the current session,
and returns exactly the mapping produced by that execution. -/
theorem query_first_attempt_success (env : Env) (fuel : Nat) (c : Counters)
    (st : ClientState) (qs : String) (qp : List (String × String))
    (doc : String) (response : List (String × String))
    (hparse : env.parse qs = .ok doc)
    (hexec : env.execute c.execs st.session doc qp = .ok response) :
    queryFuel env (fuel + 1) c st qs qp =
      some (.ok response, { st with reauthenticated := false },
        { c with execs := c.execs + 1 },
        [.executeAttempt st.session doc qp, .setFlag false]) := by
  simp [queryFuel, hparse, hexec]

/-- C1: a query call whose first attempt hits a `TransportProtocolError` and
whose single retry then succeeds discards the retry's return value: the outer
call returns the empty mapping `{}` to the original caller, regardless of the
response the retry produced. -/
theorem query_retry_success_returns_empty (env : Env) (fuel : Nat) (c : Counters)
    (st : ClientState) (qs : String) (qp : List (String × String))
    (doc m token : String) (response : List (String × String))
    (hflag : st.reauthenticated = false)
    (hparse : env.parse qs = .ok doc)
    (hexec1 : env.execute c.execs st.session doc qp = .err (.transportProtocolError m))
    (htok : env.getToken c.tokens = .ok token)
    (hexec2 : env.execute (c.execs + 1) (some ("Bearer " ++ token)) doc qp = .ok response) :
    queryFuel env (fuel + 2) c st qs qp =
      some (.ok [], { reauthenticated := false, session := some ("Bearer " ++ token) },
        { execs := c.execs + 2, tokens := c.tokens + 1 },
        [.executeAttempt st.session doc qp, .buildSession token, .setFlag true,
         .executeAttempt (some ("Bearer " ++ token)) doc qp, .setFlag false,
         .setFlag false]) := by
  simp [queryFuel, initializeClient, hflag, hparse, hexec1, htok, hexec2]

/-- C3: a `TransportProtocolError` on the first attempt triggers exactly one
session rebuild (with the freshly fetched token) and exactly one retry of the
same document with the same parameters; a `TransportProtocolError` on the
retry, with the flag already set, is re-raised without any further rebuild or
retry — one rebuild and two executions in total. -/
theorem query_protocol_error_retries_once (env : Env) (fuel : Nat) (c : Counters)
    (st : ClientState) (qs : String) (qp : List (String × String))
    (doc m token m2 : String)
    (hflag : st.reauthenticated = false)
    (hparse : env.parse qs = .ok doc)
    (hexec1 : env.execute c.execs st.session doc qp = .err (.transportProtocolError m))
    (htok : env.getToken c.tokens = .ok token)
    (hexec2 : env.execute (c.execs + 1) (some ("Bearer " ++ token)) doc qp
        = .err (.transportProtocolError m2)) :
    queryFuel env (fuel + 2) c st qs qp =
      some (.error (.transportProtocolError m2),
        { reauthenticated := false, session := some ("Bearer " ++ token) },
        { execs := c.execs + 2, tokens := c.tokens + 1 },
        [.executeAttempt st.session doc qp, .buildSession token, .setFlag true,
         .executeAttempt (some ("Bearer " ++ token)) doc qp,
         .logError "Transport protocol error - Error in configuration of GraphQL client",
         .setFlag false, .setFlag false]) ∧
    countBuilds
        [.executeAttempt st.session doc qp, .buildSession token, .setFlag true,
         .executeAttempt (some ("Bearer " ++ token)) doc qp,
         .logError "Transport protocol error - Error in configuration of GraphQL client",
         .setFlag false, .setFlag false] = 1 ∧
    countExecs
        [.executeAttempt st.session doc qp, .buildSession token, .setFlag true,
         .executeAttempt (some ("Bearer " ++ token)) doc qp,
         .logError "Transport protocol error - Error in configuration of GraphQL client",
         .setFlag false, .setFlag false] = 2 := by
  refine ⟨?_, by simp [countBuilds], by simp [countExecs]⟩
  simp [queryFuel, initializeClient, hflag, hparse, hexec1, htok, hexec2]

/-- C4: an execution error of any class other than `TransportProtocolError`
(GraphQL query/document error, transport-query error, transport-closed,
transport-server error, or unknown exception) is logged and re-raised to the
caller; the trace shows no session rebuild, no second execution, and no write
of `True` to the reauthentication flag. -/
theorem query_nonprotocol_error_reraised (env : Env) (fuel : Nat) (c : Counters)
    (st : ClientState) (qs : String) (qp : List (String × String))
    (doc : String) (e : Exc)
    (hparse : env.parse qs = .ok doc)
    (hexec : env.execute c.execs st.session doc qp = .err e)
    (hnp : e.isProtocol = false) :
    queryFuel env (fuel + 1) c st qs qp =
      some (.error e, { st with reauthenticated := false },
        { c with execs := c.execs + 1 },
        [.executeAttempt st.session doc qp, errorLogEvent e, .setFlag false]) ∧
    countBuilds [.executeAttempt st.session doc qp, errorLogEvent e, .setFlag false] = 0 ∧
    countExecs [.executeAttempt st.session doc qp, errorLogEvent e, .setFlag false] = 1 ∧
    setsFlagTrue [.executeAttempt st.session doc qp, errorLogEvent e, .setFlag false]
      = false := by
  refine ⟨?_, ?_, ?_, ?_⟩ <;>
    cases e <;>
      simp_all [queryFuel, errorLogEvent, Exc.isProtocol, countBuilds, countExecs,
        setsFlagTrue]

/-- C10: if the token fetch raises while the session is being rebuilt in the
reauthentication branch, the flag is never written `True`, no retry execution
happens, the session is left unchanged, and the token-acquisition exception
propagates to the caller. -/
theorem query_reauth_token_failure (env : Env) (fuel : Nat) (c : Counters)
    (st : ClientState) (qs : String) (qp : List (String × String))
    (doc m : String) (x : Exc)
    (hflag : st.reauthenticated = false)
    (hparse : env.parse qs = .ok doc)
    (hexec1 : env.execute c.execs st.session doc qp = .err (.transportProtocolError m))
    (htok : env.getToken c.tokens = .error x) :
    queryFuel env (fuel + 1) c st qs qp =
      some (.error x, { st with reauthenticated := false },
        { execs := c.execs + 1, tokens := c.tokens + 1 },
        [.executeAttempt st.session doc qp,
         .logCritical ("CRITICAL - Error getting access token: \n" ++ x.message),
         .setFlag false]) ∧
    setsFlagTrue
        [.executeAttempt st.session doc qp,
         .logCritical ("CRITICAL - Error getting access token: \n" ++ x.message),
         .setFlag false] = false ∧
    countExecs
        [.executeAttempt st.session doc qp,
         .logCritical ("CRITICAL - Error getting access token: \n" ++ x.message),
         .setFlag false] = 1 ∧
    countBuilds
        [.executeAttempt st.session doc qp,
         .logCritical ("CRITICAL - Error getting access token: \n" ++ x.message),
         .setFlag false] = 0 := by
  refine ⟨?_, by simp [setsFlagTrue], by simp [countExecs], by simp [countBuilds]⟩
  simp [queryFuel, initializeClient, hflag, hparse, hexec1, htok]

/-- C2: on every exit of `query` — normal return or raised exception,
whichever branch executed — the `finally` clause has written the
`_reauthenticated` flag back to `False` in the resulting client state. -/
theorem query_flag_false_on_exit (env : Env) (fuel : Nat) (c : Counters)
    (st : ClientState) (qs : String) (qp : List (String × String))
    (r : Except Exc (List (String × String))) (st2 : ClientState) (c2 : Counters)
    (tr : List Event)
    (h : queryFuel env fuel c st qs qp = some (r, st2, c2, tr)) :
    st2.reauthenticated = false := by
  cases fuel with
  | zero => simp [queryFuel] at h
  | succ fuel =>
    rw [queryFuel] at h
    repeat' split at h
    any_goals
      simp only [Option.some.injEq, Prod.mk.injEq] at h
      obtain ⟨-, h2, -, -⟩ := h
      subst h2
      rfl
    rcases hI : initializeClient env { execs := c.execs + 1, tokens := c.tokens } st
      with ⟨ri, stI, cI, trI⟩
    simp only [] at h
    rw [hI] at h
    cases ri with
    | error x =>
      simp only [Option.some.injEq, Prod.mk.injEq] at h
      obtain ⟨-, h2, -, -⟩ := h
      subst h2
      rfl
    | ok u =>
      simp only [] at h
      cases hq : queryFuel env fuel cI { reauthenticated := true, session := stI.session }
          qs qp with
      | none => rw [hq] at h; simp at h
      | some out =>
        obtain ⟨ir, st4, c4, tr4⟩ := out
        rw [hq] at h
        cases ir with
        | ok v =>
          simp only [Option.some.injEq, Prod.mk.injEq] at h
          obtain ⟨-, h2, -, -⟩ := h
          subst h2
          rfl
        | error x =>
          simp only [Option.some.injEq, Prod.mk.injEq] at h
          obtain ⟨-, h2, -, -⟩ := h
          subst h2
          rfl

/-- C9: every non-raising execution path of `query` returns a dictionary —
either the response produced by executing the query, or the empty mapping
from the retry branch's fall-through — and never `None`. -/
theorem query_ok_result_shape (env : Env) (fuel : Nat) (c : Counters)
    (st : ClientState) (qs : String) (qp : List (String × String))
    (r : List (String × String)) (st2 : ClientState) (c2 : Counters) (tr : List Event)
    (h : queryFuel env fuel c st qs qp = some (.ok r, st2, c2, tr)) :
    r = [] ∨ ∃ doc, env.parse qs = .ok doc ∧
      env.execute c.execs st.session doc qp = .ok r := by
  cases fuel with
  | zero => simp [queryFuel] at h
  | succ fuel =>
    rw [queryFuel] at h
    repeat' split at h
    · simp at h
    · rename_i x1 doc hpOk x2 resp hxOk
      simp only [Option.some.injEq, Prod.mk.injEq, Except.ok.injEq] at h
      refine Or.inr ⟨doc, hpOk, ?_⟩
      rw [hxOk, h.1]
    · simp at h
    · simp at h
    · simp only [] at h
      rcases hI : initializeClient env { execs := c.execs + 1, tokens := c.tokens } st
        with ⟨ri, stI, cI, trI⟩
      rw [hI] at h
      cases ri with
      | error xI => simp at h
      | ok u =>
        simp only [] at h
        cases hq : queryFuel env fuel cI
            { reauthenticated := true, session := stI.session } qs qp with
        | none => rw [hq] at h; simp at h
        | some out =>
          obtain ⟨ir, st4, c4, tr4⟩ := out
          rw [hq] at h
          cases ir with
          | ok v =>
            simp only [Option.some.injEq, Prod.mk.injEq, Except.ok.injEq] at h
            exact Or.inl h.1.symm
          | error xI => simp at h
    · simp at h
    · simp at h
    · simp at h
    · simp at h

/-- Helper for the logging audit: whenever `query` propagates an exception,
its trace contains a log line at error or critical severity. -/
theorem queryFuel_error_hasLog (env : Env) : ∀ (fuel : Nat) (c : Counters)
    (st : ClientState) (qs : String) (qp : List (String × String))
    (x : Exc) (st2 : ClientState) (c2 : Counters) (tr : List Event),
    queryFuel env fuel c st qs qp = some (.error x, st2, c2, tr) →
    hasLog tr = true := by
  intro fuel
  induction fuel with
  | zero =>
    intro c st qs qp x st2 c2 tr h
    simp [queryFuel] at h
  | succ fuel ih =>
    intro c st qs qp x st2 c2 tr h
    rw [queryFuel] at h
    repeat' split at h
    case h_1 =>
      simp only [Option.some.injEq, Prod.mk.injEq] at h
      obtain ⟨-, -, -, htr⟩ := h
      subst htr
      simp [hasLog]
    case h_2.h_1 => simp at h
    case h_2.h_2 =>
      simp only [Option.some.injEq, Prod.mk.injEq] at h
      obtain ⟨-, -, -, htr⟩ := h
      subst htr
      simp [hasLog]
    case h_2.h_3.isTrue =>
      simp only [Option.some.injEq, Prod.mk.injEq] at h
      obtain ⟨-, -, -, htr⟩ := h
      subst htr
      simp [hasLog]
    case h_2.h_3.isFalse =>
      simp only [] at h
      cases hT : env.getToken c.tokens with
      | error xt =>
        simp only [initializeClient, hT] at h
        simp only [Option.some.injEq, Prod.mk.injEq] at h
        obtain ⟨-, -, -, htr⟩ := h
        subst htr
        simp [hasLog]
      | ok token =>
        simp only [initializeClient, hT] at h
        cases hq : queryFuel env fuel { execs := c.execs + 1, tokens := c.tokens + 1 }
            { reauthenticated := true, session := some ("Bearer " ++ token) } qs qp with
        | none => rw [hq] at h; simp at h
        | some out =>
          obtain ⟨ir, st4, c4, tr4⟩ := out
          rw [hq] at h
          cases ir with
          | ok v => simp at h
          | error xI =>
            simp only [Option.some.injEq, Prod.mk.injEq] at h
            obtain ⟨-, -, -, htr⟩ := h
            subst htr
            have hl := ih _ _ qs qp xI _ _ _ hq
            simp only [hasLog, List.any_append, List.any_cons] at hl ⊢
            simp [hl]
    case h_2.h_4 =>
      simp only [Option.some.injEq, Prod.mk.injEq] at h
      obtain ⟨-, -, -, htr⟩ := h
      subst htr
      simp [hasLog]
    case h_2.h_5 =>
      simp only [Option.some.injEq, Prod.mk.injEq] at h
      obtain ⟨-, -, -, htr⟩ := h
      subst htr
      simp [hasLog]
    case h_2.h_6 =>
      simp only [Option.some.injEq, Prod.mk.injEq] at h
      obtain ⟨-, -, -, htr⟩ := h
      subst htr
      simp [hasLog]
    case h_2.h_7 =>
      simp only [Option.some.injEq, Prod.mk.injEq] at h
      obtain ⟨-, -, -, htr⟩ := h
      subst htr
      simp [hasLog]

/-- C7: every failure category is logged at error or critical severity before
the error is propagated: any exception propagated by `query` (query/document
error, protocol error on the retry, transport-query, transport-closed,
transport-server, unknown error, or a credential failure during the rebuild)
leaves a log line in the trace, and so does a credential-acquisition failure
during construction. -/
theorem query_failures_logged (env env2 : Env) (fuel : Nat) (c : Counters)
    (st : ClientState) (qs : String) (qp : List (String × String))
    (x : Exc) (st2 : ClientState) (c2 : Counters) (tr : List Event)
    (x2 : Exc) (cc : Counters) (trc : List Event)
    (hq : queryFuel env fuel c st qs qp = some (.error x, st2, c2, tr))
    (hc : clientInit env2 = (.error x2, cc, trc)) :
    hasLog tr = true ∧ hasLog trc = true := by
  refine ⟨queryFuel_error_hasLog env fuel c st qs qp x st2 c2 tr hq, ?_⟩
  cases hT : env2.getToken 0 with
  | error xt =>
    simp only [clientInit, initializeClient, hT, Prod.mk.injEq] at hc
    obtain ⟨-, -, htr⟩ := hc
    subst htr
    simp [hasLog]
  | ok token =>
    simp [clientInit, initializeClient, hT] at hc

/-- C6: if token acquisition raises during construction, construction fails by
re-raising that exception, and no session/transport is built (the trace shows
no session build). -/
theorem clientInit_token_failure (env : Env) (x : Exc)
    (h : env.getToken 0 = .error x) :
    clientInit env = (.error x, { execs := 0, tokens := 1 },
      [.logCritical ("CRITICAL - Error getting access token: \n" ++ x.message)]) ∧
    countBuilds [Event.logCritical ("CRITICAL - Error getting access token: \n" ++ x.message)]
      = 0 := by
  refine ⟨?_, by simp [countBuilds]⟩
  simp [clientInit, initializeClient, h]

/-- C8: for the (spec-modelled) mission-report fixture, extracting the latest
mission-report id — the identifier of the most recent summary by date
ordering — returns `"606dd56c023c8866b43f7f7e"`. -/
theorem latest_mission_report_id_fixture :
    returnLatestMissionReportId missionReportFixture =
      some "606dd56c023c8866b43f7f7e" := by
  rfl

/-- Witness for C5: a concrete run in which the first attempt succeeds and the
response is returned unchanged. -/
theorem query_first_attempt_success_witness :
    queryFuel envFirstOk 1 { execs := 0, tokens := 1 }
        { reauthenticated := false, session := some "Bearer t" } "q" [] =
      some (.ok [("robot", "ok")],
        { reauthenticated := false, session := some "Bearer t" },
        { execs := 1, tokens := 1 },
        [.executeAttempt (some "Bearer t") "q" [], .setFlag false]) :=
  query_first_attempt_success envFirstOk 0 { execs := 0, tokens := 1 }
    { reauthenticated := false, session := some "Bearer t" } "q" [] "q"
    [("robot", "ok")] rfl rfl

/-- Witness for C1: a concrete run in which the retry succeeds with a
non-empty response, yet the outer call returns the empty mapping. -/
theorem query_retry_success_returns_empty_witness :
    queryFuel envRetryOk 2 { execs := 0, tokens := 1 }
        { reauthenticated := false, session := some "Bearer t" } "q" [] =
      some (.ok [],
        { reauthenticated := false, session := some ("Bearer " ++ "fresh") },
        { execs := 2, tokens := 2 },
        [.executeAttempt (some "Bearer t") "q" [], .buildSession "fresh", .setFlag true,
         .executeAttempt (some ("Bearer " ++ "fresh")) "q" [], .setFlag false,
         .setFlag false]) :=
  query_retry_success_returns_empty envRetryOk 0 { execs := 0, tokens := 1 }
    { reauthenticated := false, session := some "Bearer t" } "q" [] "q" "expired" "fresh"
    [("a", "1")] rfl rfl rfl rfl rfl

/-- Witness for C3: a concrete run with protocol errors on both attempts —
one rebuild, two executions, the second protocol error re-raised. -/
theorem query_protocol_error_retries_once_witness :
    queryFuel envRetryProtocol 2 { execs := 0, tokens := 1 }
        { reauthenticated := false, session := some "Bearer t" } "q" [] =
      some (.error (.transportProtocolError "p"),
        { reauthenticated := false, session := some ("Bearer " ++ "fresh") },
        { execs := 2, tokens := 2 },
        [.executeAttempt (some "Bearer t") "q" [], .buildSession "fresh", .setFlag true,
         .executeAttempt (some ("Bearer " ++ "fresh")) "q" [],
         .logError "Transport protocol error - Error in configuration of GraphQL client",
         .setFlag false, .setFlag false]) ∧
    countBuilds
        [.executeAttempt (some "Bearer t") "q" [], .buildSession "fresh", .setFlag true,
         .executeAttempt (some ("Bearer " ++ "fresh")) "q" [],
         .logError "Transport protocol error - Error in configuration of GraphQL client",
         .setFlag false, .setFlag false] = 1 ∧
    countExecs
        [.executeAttempt (some "Bearer t") "q" [], .buildSession "fresh", .setFlag true,
         .executeAttempt (some ("Bearer " ++ "fresh")) "q" [],
         .logError "Transport protocol error - Error in configuration of GraphQL client",
         .setFlag false, .setFlag false] = 2 :=
  query_protocol_error_retries_once envRetryProtocol 0 { execs := 0, tokens := 1 }
    { reauthenticated := false, session := some "Bearer t" } "q" [] "q" "p" "fresh" "p"
    rfl rfl rfl rfl rfl

/-- Witness for C4: a concrete run in which a transport-query error is
re-raised with no rebuild and no retry. -/
theorem query_nonprotocol_error_reraised_witness :
    queryFuel envQueryErr 1 { execs := 0, tokens := 1 }
        { reauthenticated := false, session := some "Bearer t" } "q" [] =
      some (.error (.transportQueryError "bad"),
        { reauthenticated := false, session := some "Bearer t" },
        { execs := 1, tokens := 1 },
        [.executeAttempt (some "Bearer t") "q" [],
         errorLogEvent (.transportQueryError "bad"), .setFlag false]) ∧
    countBuilds [.executeAttempt (some "Bearer t") "q" [],
      errorLogEvent (.transportQueryError "bad"), .setFlag false] = 0 ∧
    countExecs [.executeAttempt (some "Bearer t") "q" [],
      errorLogEvent (.transportQueryError "bad"), .setFlag false] = 1 ∧
    setsFlagTrue [.executeAttempt (some "Bearer t") "q" [],
      errorLogEvent (.transportQueryError "bad"), .setFlag false] = false :=
  query_nonprotocol_error_reraised envQueryErr 0 { execs := 0, tokens := 1 }
    { reauthenticated := false, session := some "Bearer t" } "q" [] "q"
    (.transportQueryError "bad") rfl rfl rfl

/-- Witness for C10: a concrete run in which the token fetch fails during the
reauthentication rebuild. -/
theorem query_reauth_token_failure_witness :
    queryFuel envTokenFail 1 { execs := 0, tokens := 1 }
        { reauthenticated := false, session := some "Bearer t" } "q" [] =
      some (.error (.other "boom"),
        { reauthenticated := false, session := some "Bearer t" },
        { execs := 1, tokens := 2 },
        [.executeAttempt (some "Bearer t") "q" [],
         .logCritical ("CRITICAL - Error getting access token: \n"
           ++ (Exc.other "boom").message),
         .setFlag false]) ∧
    setsFlagTrue
        [.executeAttempt (some "Bearer t") "q" [],
         .logCritical ("CRITICAL - Error getting access token: \n"
           ++ (Exc.other "boom").message),
         .setFlag false] = false ∧
    countExecs
        [.executeAttempt (some "Bearer t") "q" [],
         .logCritical ("CRITICAL - Error getting access token: \n"
           ++ (Exc.other "boom").message),
         .setFlag false] = 1 ∧
    countBuilds
        [.executeAttempt (some "Bearer t") "q" [],
         .logCritical ("CRITICAL - Error getting access token: \n"
           ++ (Exc.other "boom").message),
         .setFlag false] = 0 :=
  query_reauth_token_failure envTokenFail 0 { execs := 0, tokens := 1 }
    { reauthenticated := false, session := some "Bearer t" } "q" [] "q" "expired"
    (.other "boom") rfl rfl rfl rfl

/-- Witness for C2: the flag is false in the state a concrete run exits with. -/
theorem query_flag_false_on_exit_witness :
    ({ reauthenticated := false, session := some "Bearer t" } : ClientState).reauthenticated
      = false :=
  query_flag_false_on_exit envFirstOk 1 { execs := 0, tokens := 1 }
    { reauthenticated := false, session := some "Bearer t" } "q" []
    (.ok [("robot", "ok")]) { reauthenticated := false, session := some "Bearer t" }
    { execs := 1, tokens := 1 }
    [.executeAttempt (some "Bearer t") "q" [], .setFlag false] rfl

/-- Witness for C9: the retried run returns the empty mapping. -/
theorem query_ok_result_shape_witness :
    ([] : List (String × String)) = [] ∨ ∃ doc, envRetryOk.parse "q" = .ok doc ∧
      envRetryOk.execute 0 (some "Bearer t") "q" [] = .ok [] :=
  query_ok_result_shape envRetryOk 2 { execs := 0, tokens := 1 }
    { reauthenticated := false, session := some "Bearer t" } "q" [] []
    { reauthenticated := false, session := some ("Bearer " ++ "fresh") }
    { execs := 2, tokens := 2 }
    [.executeAttempt (some "Bearer t") "q" [], .buildSession "fresh", .setFlag true,
     .executeAttempt (some ("Bearer " ++ "fresh")) "q" [], .setFlag false, .setFlag false]
    rfl

/-- Witness for C7: concrete failing runs of `query` and of construction both
leave a log line in their traces. -/
theorem query_failures_logged_witness :
    hasLog
        [.executeAttempt (some "Bearer t") "q" [], .buildSession "fresh", .setFlag true,
         .executeAttempt (some ("Bearer " ++ "fresh")) "q" [],
         .logError "Transport protocol error - Error in configuration of GraphQL client",
         .setFlag false, .setFlag false] = true ∧
    hasLog
        [.logCritical ("CRITICAL - Error getting access token: \n"
          ++ (Exc.other "boom").message)] = true :=
  query_failures_logged envRetryProtocol envTokenFail 2 { execs := 0, tokens := 1 }
    { reauthenticated := false, session := some "Bearer t" } "q" []
    (.transportProtocolError "p")
    { reauthenticated := false, session := some ("Bearer " ++ "fresh") }
    { execs := 2, tokens := 2 }
    [.executeAttempt (some "Bearer t") "q" [], .buildSession "fresh", .setFlag true,
     .executeAttempt (some ("Bearer " ++ "fresh")) "q" [],
     .logError "Transport protocol error - Error in configuration of GraphQL client",
     .setFlag false, .setFlag false]
    (.other "boom") { execs := 0, tokens := 1 }
    [.logCritical ("CRITICAL - Error getting access token: \n"
      ++ (Exc.other "boom").message)]
    rfl rfl

/-- Witness for C6: a concrete construction in which the token fetch raises. -/
theorem clientInit_token_failure_witness :
    clientInit envTokenFail = (.error (.other "boom"), { execs := 0, tokens := 1 },
      [.logCritical ("CRITICAL - Error getting access token: \n"
        ++ (Exc.other "boom").message)]) ∧
    countBuilds [Event.logCritical ("CRITICAL - Error getting access token: \n"
      ++ (Exc.other "boom").message)] = 0 :=
  clientInit_token_failure envTokenFail (.other "boom") rfl
